import Mathlib

/-!
Shallow embedding of the cart / product / session layer of the Agr_iFarma
Flask application (files `app.py` and `models.py`).

Modelling conventions:
* Python session carts are dicts keyed by `str(product_id)`; we model a dict
  as an insertion-ordered association list with the exact dict operations
  (lookup, assign-in-place-or-append, delete).
* JSON values that reach the cart (`quantity` in `POST /api/cart`) are
  modelled by `JVal`: integral JSON numbers as `JVal.jint`, strings as
  `JVal.jstr`.  Python `+=` on them and `float * value` are partial and
  raise `TypeError`, modelled in the `Except` monad.
* Python exceptions escaping a handler are `Except.error e` with
  `e : PyExc`; `str(e)` is `excMessage e`.  API handlers wrap their body in
  `try/except Exception` returning `jsonify({'success': False, 'error': str(e)}), 400`,
  modelled by `tryApi`.  `Product.query.get_or_404` raises
  `PyExc.notFound` (werkzeug NotFound, an `Exception` subclass, hence caught
  by the API handlers' catch-all).
* Floats (product prices) are modelled as rationals: no claim depends on
  rounding, only on which sums are formed.
* Each handler takes the store / session state it reads and returns
  `(status, body, state after)`; handlers that never execute a
  `session['cart'] = ...` statement return the cart they received.
-/

namespace IFarma

/-- JSON-ish values stored for cart quantities: integral JSON numbers and
strings (enough to distinguish numeric from non-numeric client input). -/
inductive JVal where
  | jint : Int → JVal
  | jstr : String → JVal
deriving Repr, DecidableEq

/-- Python exceptions that the handlers can raise: werkzeug `NotFound`
(from `get_or_404`), `KeyError` (missing dict key in the JSON payload),
`ValueError` (failed `int(...)`), `TypeError` (ill-typed `+=` or `*`),
and `NameError`/`UnboundLocalError` (variable referenced before assignment). -/
inductive PyExc where
  | notFound
  | keyError : String → PyExc
  | valueError : String → PyExc
  | typeError : String → PyExc
  | nameError : String → PyExc
deriving Repr, DecidableEq

/-- `str(e)` for each modelled exception, as Python renders it. -/
def excMessage : PyExc → String
  | .notFound =>
      "404 Not Found: The requested URL was not found on the server. If you entered the URL manually please check your spelling and try again."
  | .keyError k => "\x27" ++ k ++ "\x27"
  | .valueError m => m
  | .typeError m => m
  | .nameError v => "local variable \x27" ++ v ++ "\x27 referenced before assignment"

/-- `models.py` `Product`: id, name, category, price, image plus the
agriculture fields (seller reference omitted: no cart claim reads it). -/
structure Product where
  id : Nat
  name : String
  category : String
  price : Rat
  image : String
  description : String
  stock : Int
  origin : String
deriving Repr, DecidableEq

/-- One session-cart line: the dict
`{'id': .., 'name': .., 'price': .., 'quantity': .., 'image': ..}` built by
the add-to-cart handlers.  The quantity is whatever value the handler stored
(an `int` on the legacy form path, the raw JSON value on the API path). -/
structure CartLine where
  id : Nat
  name : String
  price : Rat
  quantity : JVal
  image : String
deriving Repr, DecidableEq

/-- The session cart `session['cart']`: a Python dict from `str(product_id)`
to a cart line, modelled as an insertion-ordered association list. -/
abbrev Cart := List (String × CartLine)

/-- Python dict read `cart.get(k)` / `k in cart` membership probe. -/
def dictGet (cart : Cart) (k : String) : Option CartLine :=
  match cart with
  | [] => none
  | (k2, v) :: rest => if k2 = k then some v else dictGet rest k

/-- Python dict assignment `cart[k] = v`: replace the existing entry in
place (dict keys are unique), append at the end when absent. -/
def dictSet (cart : Cart) (k : String) (v : CartLine) : Cart :=
  match cart with
  | [] => [(k, v)]
  | (k2, w) :: rest => if k2 = k then (k2, v) :: rest else (k2, w) :: dictSet rest k v

/-- Python `del cart[k]` (only called on present keys in the source). -/
def dictDelete (cart : Cart) (k : String) : Cart :=
  match cart with
  | [] => []
  | (k2, v) :: rest => if k2 = k then rest else (k2, v) :: dictDelete rest k

/-- `Product.query.get(product_id)`: primary-key lookup, `None` if absent. -/
def queryGet (catalog : List Product) (product_id : Nat) : Option Product :=
  catalog.find? (fun p => p.id == product_id)

/-- `Product.query.get_or_404(product_id)`: raises werkzeug `NotFound` when
the id does not resolve. -/
def getOr404 (r : Option Product) : Except PyExc Product :=
  match r with
  | some p => .ok p
  | none => .error .notFound

/-- `data[k]` on the parsed JSON payload: `KeyError` when the key is absent. -/
def ofOption {α : Type} (r : Option α) (e : PyExc) : Except PyExc α :=
  match r with
  | some a => .ok a
  | none => .error e

/-- Accumulating decimal reader: every remaining character must be a digit. -/
def parseNatAux : List Char → Nat → Option Nat
  | [], acc => some acc
  | c :: cs, acc =>
      if c.isDigit then parseNatAux cs (acc * 10 + (c.toNat - 48)) else none

/-- A nonempty all-digit character list read as a natural number. -/
def parseUInt : List Char → Option Nat
  | [] => none
  | c :: cs => if c.isDigit then parseNatAux cs (c.toNat - 48) else none

/-- The value Python `int(s)` accepts: an optionally signed decimal string
(`None` when the literal is invalid). -/
def pyIntVal (s : String) : Option Int :=
  match s.data with
  | '-' :: cs => (parseUInt cs).map (fun n => -(n : Int))
  | '+' :: cs => (parseUInt cs).map (fun n => (n : Int))
  | cs => (parseUInt cs).map (fun n => (n : Int))

/-- Python `int(s)` on a string: raises `ValueError` on an invalid
literal. -/
def pyInt (s : String) : Except PyExc Int :=
  match pyIntVal s with
  | some n => .ok n
  | none => .error (.valueError ("invalid literal for int() with base 10: \x27" ++ s ++ "\x27"))

/-- Python `a += b` on two stored JSON values: int + int adds, str + str
concatenates, mixing the two raises `TypeError`. -/
def jadd : JVal → JVal → Except PyExc JVal
  | .jint a, .jint b => .ok (.jint (a + b))
  | .jstr a, .jstr b => .ok (.jstr (a ++ b))
  | _, _ => .error (.typeError "unsupported operand types for +=")

/-- Python `price * quantity` with `price` a float: raises `TypeError`
when the stored quantity is a string. -/
def jmul (price : Rat) : JVal → Except PyExc Rat
  | .jint n => .ok (price * (n : Rat))
  | .jstr _ => .error (.typeError "cannot multiply sequence by non-int of type float")

/-- The `try: ... except Exception as e: return jsonify({'success': False,
'error': str(e)}), 400` wrapper shared by every `/api/...` handler: on any
exception the response is a 400 with `str(e)` as the error string and the
session / store state is left as it was. -/
def tryApi {ρ σ : Type} (mkErr : String → ρ) (s : σ)
    (comp : Except PyExc (Nat × ρ × σ)) : Nat × ρ × σ :=
  match comp with
  | .ok r => r
  | .error e => (400, mkErr (excMessage e), s)

/-- Body of the legacy add-to-cart JSON response
`{'success': True, 'message': ..., 'cart_count': ...}`. -/
structure AddCartResp where
  message : String
  cart_count : Nat
deriving Repr, DecidableEq

/-- Body of the legacy remove-from-cart JSON response
`{'success': True, 'message': ...}` (no cart_count on this route). -/
structure RemoveResp where
  message : String
deriving Repr, DecidableEq

/-- Bodies of the `/api/cart` mutation responses: success carries a message
and `cart_count`, failure carries `{'success': False, 'error': ...}`. -/
inductive CartMsgResp where
  | ok : String → Nat → CartMsgResp
  | err : String → CartMsgResp
deriving Repr, DecidableEq

/-- Bodies of the `/api/products/...` mutation responses. -/
inductive ProdMsgResp where
  | ok : String → ProdMsgResp
  | err : String → ProdMsgResp
deriving Repr, DecidableEq

/-- One element of the `items` array of `GET /api/cart`. -/
structure ApiCartItem where
  id : Nat
  name : String
  price : Rat
  quantity : JVal
  subtotal : Rat
  image : String
deriving Repr, DecidableEq

/-- Body of the `GET /api/cart` response. -/
inductive CartListResp where
  | ok : List ApiCartItem → Rat → Nat → CartListResp
  | err : String → CartListResp
deriving Repr, DecidableEq

/-- `app.py` 176-197, `add_to_cart` (`POST /add_to_cart/<int:product_id>`):
`quantity = int(request.form.get('quantity', 1))` (the form value is a
string when present, the default is the int 1), then `get_or_404`, then the
session-cart merge; no try/except, so any exception escapes unhandled. -/
def add_to_cart (catalog : List Product) (cart : Cart) (product_id : Nat)
    (quantity_form : Option String) : Except PyExc (Nat × AddCartResp × Cart) := do
  let quantity ← match quantity_form with
    | some s => pyInt s
    | none => pure 1
  let product ← getOr404 (queryGet catalog product_id)
  let key := toString product_id
  let cart2 ← match dictGet cart key with
    | some line => do
        let q2 ← jadd line.quantity (.jint quantity)
        pure (dictSet cart key { line with quantity := q2 })
    | none =>
        pure (dictSet cart key
          { id := product.id, name := product.name, price := product.price,
            quantity := .jint quantity, image := product.image })
  pure (200, { message := product.name ++ " added to cart!",
               cart_count := cart2.length }, cart2)

/-- `sum(item['price'] * item['quantity'] for item in cart_items)` in
`view_cart`: raises `TypeError` on a non-numeric stored quantity. -/
def sumCart : List CartLine → Except PyExc Rat
  | [] => .ok 0
  | line :: rest => do
      let s ← jmul line.price line.quantity
      let t ← sumCart rest
      pure (s + t)

/-- `app.py` 200-205, `view_cart` (`GET /cart`): renders the raw cart lines
and their price-times-quantity total; the handler body contains no
`session['cart'] = ...` statement, so the session cart it hands back is the
one it received. -/
def view_cart (cart : Cart) : Except PyExc (List CartLine × Rat × Cart) := do
  let items := cart.map (fun p => p.2)
  let total ← sumCart items
  pure (items, total, cart)

/-- `app.py` 208-219, `remove_from_cart` (`GET /remove_from_cart/<int:id>`):
deletes the line when present; the success message reads `product_name`,
which is assigned only inside the `if` branch, so when the key is absent the
return statement raises `UnboundLocalError` (unhandled on this route). -/
def remove_from_cart (cart : Cart) (product_id : Nat) :
    Except PyExc (Nat × RemoveResp × Cart) :=
  let key := toString product_id
  match dictGet cart key with
  | some line =>
      .ok (200, { message := line.name ++ " removed from cart!" }, dictDelete cart key)
  | none => .error (.nameError "product_name")

/-- The `for product_id, item in cart.items():` loop of `api_get_cart`:
`int(product_id)` on the key, silent skip when `Product.query.get` returns
`None`, otherwise a subtotal (TypeError possible) and an item built from the
stored snapshot plus the re-resolved product id. -/
def cartLoop (catalog : List Product) : Cart → Except PyExc (List ApiCartItem × Rat)
  | [] => .ok ([], 0)
  | (k, item) :: rest => do
      let n ← pyInt k
      match queryGet catalog n.toNat with
      | some product => do
          let subtotal ← jmul item.price item.quantity
          let (items, total) ← cartLoop catalog rest
          pure ({ id := product.id, name := item.name, price := item.price,
                  quantity := item.quantity, subtotal := subtotal,
                  image := item.image } :: items, subtotal + total)
      | none => cartLoop catalog rest

/-- `app.py` 349-381, `api_get_cart` (`GET /api/cart`): wraps the cart loop
in the catch-all; on success returns items, total and
`cart_count = len(cart)` computed on the raw stored cart; never writes the
session cart. -/
def api_get_cart (catalog : List Product) (cart : Cart) :
    Nat × CartListResp × Cart :=
  tryApi CartListResp.err cart (do
    let (items, total) ← cartLoop catalog cart
    pure (200, CartListResp.ok items total cart.length, cart))

/-- `app.py` 384-419, `api_add_to_cart` (`POST /api/cart`): reads
`data['product_id']` (KeyError when absent), `data.get('quantity', 1)` with
NO integer coercion, `get_or_404` (whose NotFound is caught by the
catch-all), then the same session-cart merge as the legacy route but with
the raw JSON quantity.  The payload product id is modelled as an integer
(no claim exercises a non-numeric product id). -/
def api_add_to_cart (catalog : List Product) (cart : Cart)
    (data_product_id : Option Nat) (data_quantity : Option JVal) :
    Nat × CartMsgResp × Cart :=
  tryApi CartMsgResp.err cart (do
    let product_id ← ofOption data_product_id (.keyError "product_id")
    let quantity := data_quantity.getD (.jint 1)
    let product ← getOr404 (queryGet catalog product_id)
    let key := toString product_id
    let cart2 ← match dictGet cart key with
      | some line => do
          let q2 ← jadd line.quantity quantity
          pure (dictSet cart key { line with quantity := q2 })
      | none =>
          pure (dictSet cart key
            { id := product.id, name := product.name, price := product.price,
              quantity := quantity, image := product.image })
    pure (200, CartMsgResp.ok (product.name ++ " added to cart!") cart2.length, cart2))

/-- `app.py` 422-449, `api_remove_from_cart`
(`DELETE /api/cart/remove/<int:product_id>`): deletes the line and returns
200 with a message and `cart_count` when present; returns the tagged 404
failure `{'success': False, 'error': 'Product not found in cart'}` when
absent (a normal return, not an exception). -/
def api_remove_from_cart (cart : Cart) (product_id : Nat) :
    Nat × CartMsgResp × Cart :=
  tryApi CartMsgResp.err cart (
    let key := toString product_id
    match dictGet cart key with
    | some line =>
        let cart2 := dictDelete cart key
        .ok (200, CartMsgResp.ok (line.name ++ " removed from cart!") cart2.length, cart2)
    | none => .ok (404, CartMsgResp.err "Product not found in cart", cart))

/-- Parsed JSON payload of `PUT /api/products/<id>`: `name`, `category`,
`price` are required (`data[...]`, KeyError when absent); the rest are
optional (`if ... in data`).  Numeric coercions (`float(data['price'])`,
`int(data['stock'])`) are modelled as already parsed: no claim exercises a
malformed price or stock on this route. -/
structure UpdateData where
  name : Option String
  category : Option String
  price : Option Rat
  image : Option String
  description : Option String
  stock : Option Int
  origin : Option String
deriving Repr, DecidableEq

/-- Committing an updated product row: replace the record with that id. -/
def catalogSet (catalog : List Product) (product_id : Nat) (p : Product) :
    List Product :=
  catalog.map (fun q => if q.id == product_id then p else q)

/-- `db.session.delete(product)`: drop the record with that id. -/
def catalogDelete (catalog : List Product) (product_id : Nat) : List Product :=
  catalog.filter (fun q => q.id != product_id)

/-- `app.py` 291-325, `api_update_product` (`PUT /api/products/<id>`):
`get_or_404` inside the catch-all (so NotFound surfaces as a 400 error
body), required fields read with `data[...]`, optional fields only when
present, then commit. -/
def api_update_product (catalog : List Product) (product_id : Nat)
    (data : UpdateData) : Nat × ProdMsgResp × List Product :=
  tryApi ProdMsgResp.err catalog (do
    let product ← getOr404 (queryGet catalog product_id)
    let name ← ofOption data.name (.keyError "name")
    let category ← ofOption data.category (.keyError "category")
    let price ← ofOption data.price (.keyError "price")
    let p2 : Product :=
      { product with
        name := name, category := category, price := price,
        image := data.image.getD product.image,
        description := data.description.getD product.description,
        stock := data.stock.getD product.stock,
        origin := data.origin.getD product.origin }
    pure (200, ProdMsgResp.ok "Product updated successfully!",
          catalogSet catalog product_id p2))

/-- `app.py` 328-346, `api_delete_product` (`DELETE /api/products/<id>`):
`get_or_404` inside the catch-all, then delete and a message quoting the
product name. -/
def api_delete_product (catalog : List Product) (product_id : Nat) :
    Nat × ProdMsgResp × List Product :=
  tryApi ProdMsgResp.err catalog (do
    let product ← getOr404 (queryGet catalog product_id)
    pure (200,
          ProdMsgResp.ok ("Product \x22" ++ product.name ++ "\x22 deleted successfully!"),
          catalogDelete catalog product_id))

/-- `models.py` `User`: the fields the login route reads. -/
structure User where
  id : Nat
  name : String
  email : String
  password : String
  role : String
deriving Repr, DecidableEq

/-- Outcome of a submitted login form: either a session principal
(`session['user'/'name'/'role']`) or the flashed failure message. -/
inductive LoginResult where
  | success : Nat → String → String → LoginResult
  | failure : String → LoginResult
deriving Repr, DecidableEq

/-- `User.query.filter_by(email=...).first()`. -/
def findByEmail (users : List User) (email : String) : Option User :=
  users.find? (fun u => u.email == email)

/-- `app.py` 106-119, `login`: looks the user up by email and checks the
password hash (`check_password_hash`, abstracted as `chk stored candidate`);
both failure branches flash the same `'Invalid email or password.'`. -/
def login (chk : String → String → Bool) (users : List User)
    (email password : String) : LoginResult :=
  match findByEmail users email with
  | some u =>
      if chk u.password password then .success u.id u.name u.role
      else .failure "Invalid email or password."
  | none => .failure "Invalid email or password."

/-- Two of the seed products inserted at startup (`app.py` 20-69), used as
concrete catalogs in witnesses. -/
def tomatoes : Product :=
  { id := 1, name := "Organic Tomatoes", category := "Vegetables",
    price := (399 : Rat) / 100,
    image := "https://images.unsplash.com/photo-1546470427-e212d4d25323?w=400",
    description := "Fresh organic tomatoes grown without pesticides, perfect for salads and cooking.",
    stock := 50, origin := "" }

/-- Second seed product (`app.py` 29-36). -/
def apples : Product :=
  { id := 2, name := "Fresh Apples", category := "Fruits",
    price := (249 : Rat) / 100,
    image := "https://images.unsplash.com/photo-1568702846914-96b305d2aaeb?w=400",
    description := "Crisp and juicy red apples, hand-picked from our orchard.",
    stock := 75, origin := "" }

/-! ### Except-monad reduction lemmas (do-notation unfolding) -/

theorem epure_def {ε α : Type} (a : α) : (pure a : Except ε α) = .ok a := rfl

theorem ebind_ok {ε α β : Type} (a : α) (f : α → Except ε β) :
    (Except.ok a >>= f) = f a := rfl

theorem ebind_err {ε α β : Type} (e : ε) (f : α → Except ε β) :
    ((Except.error e : Except ε α) >>= f) = .error e := rfl

theorem emap_ok {ε α β : Type} (g : α → β) (a : α) :
    (g <$> (Except.ok a : Except ε α)) = .ok (g a) := rfl

theorem emap_err {ε α β : Type} (g : α → β) (e : ε) :
    (g <$> (Except.error e : Except ε α)) = (.error e : Except ε β) := rfl

/-! ### Dictionary lemmas -/

theorem dictGet_dictSet_self (cart : Cart) (k : String) (v : CartLine) :
    dictGet (dictSet cart k v) k = some v := by
  induction cart with
  | nil => simp [dictSet, dictGet]
  | cons p rest ih =>
      obtain ⟨k2, w⟩ := p
      by_cases h : k2 = k
      · simp [dictSet, dictGet, h]
      · simp [dictSet, dictGet, h, ih]

theorem countKey_eq_zero {cart : Cart} {k : String}
    (h : dictGet cart k = none) :
    cart.countP (fun p => p.1 == k) = 0 := by
  induction cart with
  | nil => simp
  | cons p rest ih =>
      obtain ⟨k2, w⟩ := p
      by_cases hk : k2 = k
      · simp [dictGet, hk] at h
      · simp [dictGet, hk] at h
        simp [List.countP_cons, hk, ih h]

theorem countKey_dictSet_absent {cart : Cart} {k : String}
    (h : dictGet cart k = none) (v : CartLine) :
    (dictSet cart k v).countP (fun p => p.1 == k) = 1 := by
  induction cart with
  | nil => simp [dictSet]
  | cons p rest ih =>
      obtain ⟨k2, w⟩ := p
      by_cases hk : k2 = k
      · simp [dictGet, hk] at h
      · simp [dictGet, hk] at h
        simp [dictSet, hk, List.countP_cons, ih h]

theorem countKey_dictSet_present {cart : Cart} {k : String} {w : CartLine}
    (h : dictGet cart k = some w) (v : CartLine) :
    (dictSet cart k v).countP (fun p => p.1 == k) =
      cart.countP (fun p => p.1 == k) := by
  induction cart with
  | nil => simp [dictGet] at h
  | cons p rest ih =>
      obtain ⟨k2, w2⟩ := p
      by_cases hk : k2 = k
      · simp [dictSet, hk, List.countP_cons]
      · simp [dictGet, hk] at h
        simp [dictSet, hk, List.countP_cons, ih h]

/-! ### Claim theorems -/

/-- Claim C1 (amended): when `p` is absent from the cart both remove routes
leave the cart unchanged, but neither returns a success-shaped response: the
legacy `/remove_from_cart/<id>` raises an unhandled `UnboundLocalError`
(`product_name` is only assigned inside the `if` branch), and
`DELETE /api/cart/remove/<id>` returns the tagged 404 failure
`{'success': False, 'error': 'Product not found in cart'}`. -/
theorem C1_remove_absent_behavior :
    ∀ (cart : Cart) (product_id : Nat),
    dictGet cart (toString product_id) = none →
    remove_from_cart cart product_id = .error (.nameError "product_name") ∧
    api_remove_from_cart cart product_id =
      (404, CartMsgResp.err "Product not found in cart", cart) := by
  intro cart pid h
  constructor
  · simp [remove_from_cart, h]
  · simp [api_remove_from_cart, tryApi, h]

/-- Claim C1 witness: the amended behavior at the empty cart and id 7. -/
theorem C1_remove_absent_witness :
    dictGet ([] : Cart) (toString 7) = none ∧
    (remove_from_cart [] 7 = .error (.nameError "product_name") ∧
     api_remove_from_cart [] 7 =
       (404, CartMsgResp.err "Product not found in cart", [])) :=
  ⟨rfl, C1_remove_absent_behavior [] 7 rfl⟩

/-- Claim C1 counterexample: removing id 1 from an empty cart makes the
legacy route raise an unhandled `NameError` and makes the API route answer
with a 404 failure body — neither is the success-shaped, non-raising
response the claim asserts for both routes. -/
theorem C1_remove_absent_counterexample :
    remove_from_cart [] 1 = .error (.nameError "product_name") ∧
    api_remove_from_cart [] 1 =
      (404, CartMsgResp.err "Product not found in cart", []) :=
  ⟨rfl, rfl⟩

/-- Claim C5 (amended): adding a nonexistent product leaves the cart
unchanged on every path, but only the legacy route actually fails with
NotFound (404): the API route catches the werkzeug `NotFound` in its
catch-all and returns a tagged failure with HTTP status 400 whose error
string is the NotFound exception text. -/
theorem C5_add_nonexistent_behavior :
    ∀ (catalog : List Product) (cart : Cart) (product_id : Nat),
    queryGet catalog product_id = none →
    add_to_cart catalog cart product_id none = .error PyExc.notFound ∧
    (∀ (s : String) (q : Int), pyIntVal s = some q →
      add_to_cart catalog cart product_id (some s) = .error PyExc.notFound) ∧
    (∀ data_quantity : Option JVal,
      api_add_to_cart catalog cart (some product_id) data_quantity =
        (400, CartMsgResp.err (excMessage PyExc.notFound), cart)) := by
  intro catalog cart pid h
  refine ⟨?_, ?_, ?_⟩
  · simp [add_to_cart, getOr404, h, epure_def, ebind_ok, ebind_err, emap_ok, emap_err]
  · intro s q hs
    simp [add_to_cart, pyInt, hs, getOr404, h, epure_def, ebind_ok, ebind_err, emap_ok, emap_err]
  · intro dq
    simp [api_add_to_cart, tryApi, ofOption, getOr404, h, epure_def, ebind_ok, ebind_err, emap_ok, emap_err]

/-- Claim C5 witness: the amended behavior on the seed catalog at id 999. -/
theorem C5_add_nonexistent_witness :
    queryGet [tomatoes] 999 = none ∧
    pyIntVal "2" = some 2 ∧
    add_to_cart [tomatoes] [] 999 (some "2") = .error PyExc.notFound ∧
    api_add_to_cart [tomatoes] [] (some 999) none =
      (400, CartMsgResp.err (excMessage PyExc.notFound), []) :=
  ⟨rfl, rfl,
   (C5_add_nonexistent_behavior [tomatoes] [] 999 rfl).2.1 "2" 2 rfl,
   (C5_add_nonexistent_behavior [tomatoes] [] 999 rfl).2.2 none⟩

/-- Claim C5 counterexample: `POST /api/cart` for nonexistent id 999 answers
with HTTP status 400, not a NotFound-class 404 failure. -/
theorem C5_add_nonexistent_counterexample :
    (api_add_to_cart [tomatoes] [] (some 999) none).1 = 400 ∧
    (api_add_to_cart [tomatoes] [] (some 999) none).1 ≠ 404 := by
  exact ⟨rfl, by decide⟩

/-- Claim C6 (amended): whenever an API handler body raises, the error
string placed in the JSON body is exactly `str(e)`, the internal exception
text — shown for the shared catch-all wrapper and, concretely, for a
missing `product_id` key in `POST /api/cart` and a nonexistent id in
`DELETE /api/products/<id>`. -/
theorem C6_error_is_exception_text :
    (∀ (cart : Cart) (comp : Except PyExc (Nat × CartMsgResp × Cart)) (e : PyExc),
      comp = .error e →
      tryApi CartMsgResp.err cart comp =
        (400, CartMsgResp.err (excMessage e), cart)) ∧
    (∀ (catalog : List Product) (cart : Cart) (dq : Option JVal),
      api_add_to_cart catalog cart none dq =
        (400, CartMsgResp.err (excMessage (PyExc.keyError "product_id")), cart)) ∧
    (∀ (catalog : List Product) (product_id : Nat),
      queryGet catalog product_id = none →
      api_delete_product catalog product_id =
        (400, ProdMsgResp.err (excMessage PyExc.notFound), catalog)) := by
  refine ⟨?_, ?_, ?_⟩
  · intro cart comp e h
    subst h
    rfl
  · intro catalog cart dq
    simp [api_add_to_cart, tryApi, ofOption, epure_def, ebind_ok, ebind_err, emap_ok, emap_err]
  · intro catalog pid h
    simp [api_delete_product, tryApi, getOr404, h, epure_def, ebind_ok, ebind_err, emap_ok, emap_err]

/-- Claim C6 witness: the amended behavior at concrete inputs. -/
theorem C6_error_is_exception_text_witness :
    (Except.error PyExc.notFound :
        Except PyExc (Nat × CartMsgResp × Cart)) = .error PyExc.notFound ∧
    queryGet ([] : List Product) 5 = none ∧
    tryApi CartMsgResp.err ([] : Cart) (.error PyExc.notFound) =
      (400, CartMsgResp.err (excMessage PyExc.notFound), []) ∧
    api_add_to_cart [] [] none none =
      (400, CartMsgResp.err (excMessage (PyExc.keyError "product_id")), []) ∧
    api_delete_product [] 5 =
      (400, ProdMsgResp.err (excMessage PyExc.notFound), []) :=
  ⟨rfl, rfl,
   C6_error_is_exception_text.1 [] (.error PyExc.notFound) PyExc.notFound rfl,
   C6_error_is_exception_text.2.1 [] [] none,
   C6_error_is_exception_text.2.2 [] 5 rfl⟩

/-- Claim C6 counterexample: deleting a nonexistent product returns a body
whose error field is the full internal text of the werkzeug NotFound
exception, not a short sanitized message. -/
theorem C6_error_is_exception_text_counterexample :
    api_delete_product [] 9 =
      (400, ProdMsgResp.err (excMessage PyExc.notFound), []) ∧
    excMessage PyExc.notFound =
      "404 Not Found: The requested URL was not found on the server. If you entered the URL manually please check your spelling and try again." :=
  ⟨rfl, rfl⟩

/-- Claim C7 (amended): `PUT /api/products/<id>` for an absent id modifies
no record, but its response has HTTP status 400 (the catch-all translates
the NotFound into a generic 400 error body), not a NotFound-class 404. -/
theorem C7_update_nonexistent_behavior :
    ∀ (catalog : List Product) (product_id : Nat) (data : UpdateData),
    queryGet catalog product_id = none →
    api_update_product catalog product_id data =
      (400, ProdMsgResp.err (excMessage PyExc.notFound), catalog) := by
  intro catalog pid data h
  simp [api_update_product, tryApi, getOr404, h, epure_def, ebind_ok, ebind_err, emap_ok, emap_err]

/-- Claim C7 witness: the amended behavior at id 999 over the empty
catalog. -/
theorem C7_update_nonexistent_witness :
    queryGet ([] : List Product) 999 = none ∧
    api_update_product [] 999 ⟨none, none, none, none, none, none, none⟩ =
      (400, ProdMsgResp.err (excMessage PyExc.notFound), []) :=
  ⟨rfl,
   C7_update_nonexistent_behavior [] 999 ⟨none, none, none, none, none, none, none⟩ rfl⟩

/-- Claim C7 counterexample: `PUT /api/products/999` against the seed
catalog answers 400 (not 404), though it indeed modifies nothing. -/
theorem C7_update_nonexistent_counterexample :
    (api_update_product [tomatoes] 999
      ⟨some "X", some "Y", some 1, none, none, none, none⟩).1 = 400 ∧
    (api_update_product [tomatoes] 999
      ⟨some "X", some "Y", some 1, none, none, none, none⟩).1 ≠ 404 ∧
    (api_update_product [tomatoes] 999
      ⟨some "X", some "Y", some 1, none, none, none, none⟩).2.2 = [tomatoes] := by
  exact ⟨rfl, by decide, rfl⟩

/-- Seed product with the fields changed, standing for a catalog update
that happens between two adds of the same product. -/
def tomatoes2 : Product := { tomatoes with name := "Tomatoes v2", price := 5 }

/-- Claim C2: two adds of the same existing product within one session (on
the legacy route with form quantities, and on the API route with integral
JSON quantities) leave a single cart line for that product whose quantity
is `q1 + q2` and whose id/name/price/image snapshot is the one captured at
the first add — even when the catalog entry changes (to `product2`) before
the second add, the stored snapshot stays `product1`'s. -/
theorem C2_add_twice_merges :
    ∀ (catalog1 catalog2 : List Product) (cart : Cart) (product_id : Nat)
      (product1 product2 : Product) (q1 q2 : Int) (s1 s2 : String),
    queryGet catalog1 product_id = some product1 →
    queryGet catalog2 product_id = some product2 →
    dictGet cart (toString product_id) = none →
    pyIntVal s1 = some q1 → pyIntVal s2 = some q2 →
    (∃ cart1 cart2 : Cart,
      add_to_cart catalog1 cart product_id (some s1) =
        .ok (200, { message := product1.name ++ " added to cart!",
                    cart_count := cart1.length }, cart1) ∧
      add_to_cart catalog2 cart1 product_id (some s2) =
        .ok (200, { message := product2.name ++ " added to cart!",
                    cart_count := cart2.length }, cart2) ∧
      dictGet cart2 (toString product_id) =
        some { id := product1.id, name := product1.name, price := product1.price,
               quantity := .jint (q1 + q2), image := product1.image } ∧
      cart2.countP (fun p => p.1 == toString product_id) = 1) ∧
    (∃ cart1 cart2 : Cart,
      api_add_to_cart catalog1 cart (some product_id) (some (.jint q1)) =
        (200, CartMsgResp.ok (product1.name ++ " added to cart!") cart1.length, cart1) ∧
      api_add_to_cart catalog2 cart1 (some product_id) (some (.jint q2)) =
        (200, CartMsgResp.ok (product2.name ++ " added to cart!") cart2.length, cart2) ∧
      dictGet cart2 (toString product_id) =
        some { id := product1.id, name := product1.name, price := product1.price,
               quantity := .jint (q1 + q2), image := product1.image } ∧
      cart2.countP (fun p => p.1 == toString product_id) = 1) := by
  intro catalog1 catalog2 cart pid product1 product2 q1 q2 s1 s2 h1 h2 hc hs1 hs2
  have hg1 := dictGet_dictSet_self cart (toString pid)
    { id := product1.id, name := product1.name, price := product1.price,
      quantity := .jint q1, image := product1.image }
  constructor
  · refine ⟨dictSet cart (toString pid)
        { id := product1.id, name := product1.name, price := product1.price,
          quantity := .jint q1, image := product1.image },
      dictSet (dictSet cart (toString pid)
          { id := product1.id, name := product1.name, price := product1.price,
            quantity := .jint q1, image := product1.image }) (toString pid)
        { id := product1.id, name := product1.name, price := product1.price,
          quantity := .jint (q1 + q2), image := product1.image },
      ?_, ?_, ?_, ?_⟩
    · simp [add_to_cart, pyInt, hs1, h1, getOr404, hc,
            epure_def, ebind_ok, ebind_err, emap_ok, emap_err]
    · simp [add_to_cart, pyInt, hs2, h2, getOr404, hg1, jadd,
            epure_def, ebind_ok, ebind_err, emap_ok, emap_err]
    · exact dictGet_dictSet_self _ _ _
    · rw [countKey_dictSet_present hg1, countKey_dictSet_absent hc]
  · refine ⟨dictSet cart (toString pid)
        { id := product1.id, name := product1.name, price := product1.price,
          quantity := .jint q1, image := product1.image },
      dictSet (dictSet cart (toString pid)
          { id := product1.id, name := product1.name, price := product1.price,
            quantity := .jint q1, image := product1.image }) (toString pid)
        { id := product1.id, name := product1.name, price := product1.price,
          quantity := .jint (q1 + q2), image := product1.image },
      ?_, ?_, ?_, ?_⟩
    · simp [api_add_to_cart, tryApi, ofOption, pyInt, h1, getOr404, hc,
            epure_def, ebind_ok, ebind_err, emap_ok, emap_err]
    · simp [api_add_to_cart, tryApi, ofOption, pyInt, h2, getOr404, hg1, jadd,
            epure_def, ebind_ok, ebind_err, emap_ok, emap_err]
    · exact dictGet_dictSet_self _ _ _
    · rw [countKey_dictSet_present hg1, countKey_dictSet_absent hc]

/-- Claim C2 witness: two adds of seed product 1 (quantities 2 then 3,
catalog price/name changed in between) at the empty session cart. -/
theorem C2_add_twice_merges_witness :
    queryGet [tomatoes] 1 = some tomatoes ∧
    queryGet [tomatoes2] 1 = some tomatoes2 ∧
    dictGet ([] : Cart) (toString 1) = none ∧
    pyIntVal "2" = some 2 ∧
    pyIntVal "3" = some 3 ∧
    ((∃ cart1 cart2 : Cart,
      add_to_cart [tomatoes] [] 1 (some "2") =
        .ok (200, { message := tomatoes.name ++ " added to cart!",
                    cart_count := cart1.length }, cart1) ∧
      add_to_cart [tomatoes2] cart1 1 (some "3") =
        .ok (200, { message := tomatoes2.name ++ " added to cart!",
                    cart_count := cart2.length }, cart2) ∧
      dictGet cart2 (toString 1) =
        some { id := tomatoes.id, name := tomatoes.name, price := tomatoes.price,
               quantity := .jint (2 + 3), image := tomatoes.image } ∧
      cart2.countP (fun p => p.1 == toString 1) = 1) ∧
    (∃ cart1 cart2 : Cart,
      api_add_to_cart [tomatoes] [] (some 1) (some (.jint 2)) =
        (200, CartMsgResp.ok (tomatoes.name ++ " added to cart!") cart1.length, cart1) ∧
      api_add_to_cart [tomatoes2] cart1 (some 1) (some (.jint 3)) =
        (200, CartMsgResp.ok (tomatoes2.name ++ " added to cart!") cart2.length, cart2) ∧
      dictGet cart2 (toString 1) =
        some { id := tomatoes.id, name := tomatoes.name, price := tomatoes.price,
               quantity := .jint (2 + 3), image := tomatoes.image } ∧
      cart2.countP (fun p => p.1 == toString 1) = 1)) :=
  ⟨rfl, rfl, rfl, rfl, rfl,
   C2_add_twice_merges [tomatoes] [tomatoes2] [] 1 tomatoes tomatoes2 2 3 "2" "3"
     rfl rfl rfl rfl rfl⟩

/-- Claim C3 (amended): the API cart surface does turn its exceptions into
tagged 400 failures (here: missing `product_id`), but the claim fails in
two ways on the code: the API add path performs no integer coercion of
`quantity` — a string quantity is stored verbatim in a fresh cart line with
a success response — and the legacy add route has no exception handler, so
a non-numeric form quantity raises an unhandled `ValueError` to a top-level
fault.  An absent quantity does default to 1 on both paths. -/
theorem C3_malformed_input_behavior :
    (∀ (catalog : List Product) (cart : Cart) (dq : Option JVal),
      api_add_to_cart catalog cart none dq =
        (400, CartMsgResp.err (excMessage (PyExc.keyError "product_id")), cart)) ∧
    (∀ (catalog : List Product) (cart : Cart) (product_id : Nat)
       (product : Product) (s : String),
      queryGet catalog product_id = some product →
      dictGet cart (toString product_id) = none →
      api_add_to_cart catalog cart (some product_id) (some (.jstr s)) =
        (200,
         CartMsgResp.ok (product.name ++ " added to cart!")
           (dictSet cart (toString product_id)
             { id := product.id, name := product.name, price := product.price,
               quantity := .jstr s, image := product.image }).length,
         dictSet cart (toString product_id)
           { id := product.id, name := product.name, price := product.price,
             quantity := .jstr s, image := product.image })) ∧
    (∀ (catalog : List Product) (cart : Cart) (product_id : Nat) (s : String),
      pyIntVal s = none →
      add_to_cart catalog cart product_id (some s) =
        .error (.valueError
          ("invalid literal for int() with base 10: \x27" ++ s ++ "\x27"))) ∧
    (∀ (catalog : List Product) (cart : Cart) (product_id : Nat)
       (product : Product),
      queryGet catalog product_id = some product →
      dictGet cart (toString product_id) = none →
      add_to_cart catalog cart product_id none =
        .ok (200,
          { message := product.name ++ " added to cart!",
            cart_count := (dictSet cart (toString product_id)
              { id := product.id, name := product.name, price := product.price,
                quantity := .jint 1, image := product.image }).length },
          dictSet cart (toString product_id)
            { id := product.id, name := product.name, price := product.price,
              quantity := .jint 1, image := product.image })) ∧
    (∀ (catalog : List Product) (cart : Cart) (product_id : Nat)
       (product : Product),
      queryGet catalog product_id = some product →
      dictGet cart (toString product_id) = none →
      api_add_to_cart catalog cart (some product_id) none =
        (200,
         CartMsgResp.ok (product.name ++ " added to cart!")
           (dictSet cart (toString product_id)
             { id := product.id, name := product.name, price := product.price,
               quantity := .jint 1, image := product.image }).length,
         dictSet cart (toString product_id)
           { id := product.id, name := product.name, price := product.price,
             quantity := .jint 1, image := product.image })) := by
  refine ⟨?_, ?_, ?_, ?_, ?_⟩
  · intro catalog cart dq
    simp [api_add_to_cart, tryApi, ofOption,
          epure_def, ebind_ok, ebind_err, emap_ok, emap_err]
  · intro catalog cart pid product s h hc
    simp [api_add_to_cart, tryApi, ofOption, h, getOr404, hc,
          epure_def, ebind_ok, ebind_err, emap_ok, emap_err]
  · intro catalog cart pid s hs
    simp [add_to_cart, pyInt, hs,
          epure_def, ebind_ok, ebind_err, emap_ok, emap_err]
  · intro catalog cart pid product h hc
    simp [add_to_cart, pyInt, h, getOr404, hc,
          epure_def, ebind_ok, ebind_err, emap_ok, emap_err]
  · intro catalog cart pid product h hc
    simp [api_add_to_cart, tryApi, ofOption, h, getOr404, hc,
          epure_def, ebind_ok, ebind_err, emap_ok, emap_err]

/-- Claim C3 witness: the amended behavior at concrete inputs (missing
product id; string quantity "4" stored verbatim for seed product 2; form
quantity "abc" raising on the legacy route; absent quantity defaulting to 1
on both add paths for seed product 2). -/
theorem C3_malformed_input_witness :
    queryGet [apples] 2 = some apples ∧
    dictGet ([] : Cart) (toString 2) = none ∧
    pyIntVal "abc" = none ∧
    api_add_to_cart [] [] none none =
      (400, CartMsgResp.err (excMessage (PyExc.keyError "product_id")), []) ∧
    api_add_to_cart [apples] [] (some 2) (some (.jstr "4")) =
      (200,
       CartMsgResp.ok (apples.name ++ " added to cart!")
         (dictSet [] (toString 2)
           { id := apples.id, name := apples.name, price := apples.price,
             quantity := .jstr "4", image := apples.image }).length,
       dictSet [] (toString 2)
         { id := apples.id, name := apples.name, price := apples.price,
           quantity := .jstr "4", image := apples.image }) ∧
    add_to_cart [apples] [] 2 (some "abc") =
      .error (.valueError
        ("invalid literal for int() with base 10: \x27" ++ "abc" ++ "\x27")) ∧
    add_to_cart [apples] [] 2 none =
      .ok (200,
        { message := apples.name ++ " added to cart!",
          cart_count := (dictSet [] (toString 2)
            { id := apples.id, name := apples.name, price := apples.price,
              quantity := .jint 1, image := apples.image }).length },
        dictSet [] (toString 2)
          { id := apples.id, name := apples.name, price := apples.price,
            quantity := .jint 1, image := apples.image }) ∧
    api_add_to_cart [apples] [] (some 2) none =
      (200,
       CartMsgResp.ok (apples.name ++ " added to cart!")
         (dictSet [] (toString 2)
           { id := apples.id, name := apples.name, price := apples.price,
             quantity := .jint 1, image := apples.image }).length,
       dictSet [] (toString 2)
         { id := apples.id, name := apples.name, price := apples.price,
           quantity := .jint 1, image := apples.image }) :=
  ⟨rfl, rfl, rfl,
   C3_malformed_input_behavior.1 [] [] none,
   C3_malformed_input_behavior.2.1 [apples] [] 2 apples "4" rfl rfl,
   C3_malformed_input_behavior.2.2.1 [apples] [] 2 "abc" rfl,
   C3_malformed_input_behavior.2.2.2.1 [apples] [] 2 apples rfl rfl,
   C3_malformed_input_behavior.2.2.2.2 [apples] [] 2 apples rfl rfl⟩

/-- Claim C3 counterexample: a non-numeric form quantity on
`/add_to_cart/1` escapes as an unhandled `ValueError` (no tagged failure
response exists on that path), and `POST /api/cart` stores the uncoerced
string quantity "2" in the session cart with a success response. -/
theorem C3_malformed_input_counterexample :
    add_to_cart [tomatoes] [] 1 (some "two") =
      .error (.valueError "invalid literal for int() with base 10: \x27two\x27") ∧
    (api_add_to_cart [tomatoes] [] (some 1) (some (.jstr "2"))).2.2 =
      [("1", { id := tomatoes.id, name := tomatoes.name, price := tomatoes.price,
               quantity := .jstr "2", image := tomatoes.image })] :=
  ⟨rfl, rfl⟩

/-- Claim C9: a login with an existing email and a password whose hash
check fails produces exactly the same result (hence the same flashed
message) as a login with an email that matches no user — the generic
`Invalid email or password.` in both runs, for every hash checker, user
table and pair of attempts. -/
theorem C9_login_no_enumeration :
    ∀ (chk : String → String → Bool) (users : List User)
      (email password : String) (u : User),
    findByEmail users email = some u →
    chk u.password password = false →
    ∀ email2 password2 : String,
    findByEmail users email2 = none →
    login chk users email password = login chk users email2 password2 ∧
    login chk users email password = .failure "Invalid email or password." := by
  intro chk users email password u hu hchk email2 password2 h2
  simp [login, hu, hchk, h2]

/-- Claim C9 witness: one stored user, a wrong password for their email and
a lookup of an unknown email yield the identical generic failure. -/
theorem C9_login_no_enumeration_witness :
    findByEmail [⟨1, "Ann", "a@x.com", "hashed", "user"⟩] "a@x.com" =
      some ⟨1, "Ann", "a@x.com", "hashed", "user"⟩ ∧
    (fun stored candidate => stored == candidate) "hashed" "wrong" = false ∧
    findByEmail [⟨1, "Ann", "a@x.com", "hashed", "user"⟩] "b@x.com" = none ∧
    (login (fun stored candidate => stored == candidate)
        [⟨1, "Ann", "a@x.com", "hashed", "user"⟩] "a@x.com" "wrong" =
      login (fun stored candidate => stored == candidate)
        [⟨1, "Ann", "a@x.com", "hashed", "user"⟩] "b@x.com" "anything" ∧
     login (fun stored candidate => stored == candidate)
        [⟨1, "Ann", "a@x.com", "hashed", "user"⟩] "a@x.com" "wrong" =
      .failure "Invalid email or password.") :=
  ⟨rfl, rfl, rfl,
   C9_login_no_enumeration (fun stored candidate => stored == candidate)
     [⟨1, "Ann", "a@x.com", "hashed", "user"⟩] "a@x.com" "wrong"
     ⟨1, "Ann", "a@x.com", "hashed", "user"⟩ rfl rfl "b@x.com" "anything" rfl⟩

/-- Executable check that every stored quantity in a cart is an integer
(true for every cart built by the legacy form route). -/
def intQuantitiesB (cart : Cart) : Bool :=
  cart.all (fun p => match p.2.quantity with | .jint _ => true | .jstr _ => false)

/-- Spec-side numeric reading of a stored quantity (meaningful under the
all-integer hypothesis). -/
def qtyAsRat : JVal → Rat
  | .jint n => (n : Rat)
  | .jstr _ => 0

theorem intQuantitiesB_spec {cart : Cart} (h : intQuantitiesB cart = true) :
    ∀ p ∈ cart, ∃ q : Int, p.2.quantity = JVal.jint q := by
  intro p hp
  have hb := List.all_eq_true.mp h p hp
  cases hq : p.2.quantity with
  | jint q => exact ⟨q, rfl⟩
  | jstr s => rw [hq] at hb; simp at hb

theorem sumCart_ok :
    ∀ items : List CartLine,
    (∀ line ∈ items, ∃ q : Int, line.quantity = JVal.jint q) →
    sumCart items =
      .ok ((items.map (fun l => l.price * qtyAsRat l.quantity)).sum) := by
  intro items
  induction items with
  | nil => intro _; simp [sumCart]
  | cons line rest ih =>
      intro h
      obtain ⟨q, hq⟩ := h line (by simp)
      have hr := ih (fun l hl => h l (by simp [hl]))
      simp [sumCart, hq, jmul, hr, qtyAsRat, epure_def, ebind_ok, ebind_err]

/-- Claim C8: the `/cart` view computes its total as the sum of
price-times-quantity over all stored lines (and does not write the session
cart), and the `cart_count` reported by the cart operations is the number
of distinct stored lines — `len(cart)` on the dict — not the sum of
quantities: every successful legacy add reports the line count of the
resulting cart, and `GET /api/cart` reports the line count of the raw
stored cart. -/
theorem C8_total_and_cart_count :
    (∀ cart : Cart,
      intQuantitiesB cart = true →
      view_cart cart =
        .ok (cart.map (fun p => p.2),
             ((cart.map (fun p => p.2)).map
               (fun l => l.price * qtyAsRat l.quantity)).sum,
             cart)) ∧
    (∀ (catalog : List Product) (cart : Cart) (product_id : Nat)
       (quantity_form : Option String) (st : Nat) (resp : AddCartResp)
       (cart2 : Cart),
      add_to_cart catalog cart product_id quantity_form = .ok (st, resp, cart2) →
      resp.cart_count = cart2.length) ∧
    (∀ (catalog : List Product) (cart : Cart) (items : List ApiCartItem)
       (total : Rat) (cnt : Nat) (cart2 : Cart),
      api_get_cart catalog cart = (200, CartListResp.ok items total cnt, cart2) →
      cnt = cart.length) := by
  refine ⟨?_, ?_, ?_⟩
  · intro cart h
    have hs := sumCart_ok (cart.map (fun p => p.2)) ?_
    · simp [view_cart, hs, epure_def, ebind_ok]
    · intro line hl
      obtain ⟨p, hp, hpe⟩ := List.mem_map.mp hl
      exact hpe ▸ intQuantitiesB_spec h p hp
  · intro catalog cart pid qf st resp cart2 h
    unfold add_to_cart pyInt at h
    cases qf with
    | none =>
        simp only [epure_def, ebind_ok] at h
        cases hg : queryGet catalog pid with
        | none =>
            rw [hg] at h
            simp [getOr404, ebind_err] at h
        | some product =>
            rw [hg] at h
            simp only [getOr404, ebind_ok] at h
            cases hd : dictGet cart (toString pid) with
            | none =>
                rw [hd] at h
                simp only [epure_def, ebind_ok, Except.ok.injEq,
                           Prod.mk.injEq] at h
                obtain ⟨-, h2, h3⟩ := h
                subst h3
                rw [← h2]
            | some line =>
                rw [hd] at h
                simp only [] at h
                cases hj : jadd line.quantity (JVal.jint 1) with
                | error e => rw [hj] at h; simp [emap_err, ebind_err] at h
                | ok q2 =>
                    rw [hj] at h
                    simp only [emap_ok, ebind_ok, epure_def, Except.ok.injEq,
                               Prod.mk.injEq] at h
                    obtain ⟨-, h2, h3⟩ := h
                    subst h3
                    rw [← h2]
    | some s =>
        simp only [] at h
        cases hq : pyIntVal s with
        | none => rw [hq] at h; simp [ebind_err] at h
        | some q =>
            rw [hq] at h
            simp only [epure_def, ebind_ok] at h
            cases hg : queryGet catalog pid with
            | none =>
                rw [hg] at h
                simp [getOr404, ebind_err] at h
            | some product =>
                rw [hg] at h
                simp only [getOr404, ebind_ok] at h
                cases hd : dictGet cart (toString pid) with
                | none =>
                    rw [hd] at h
                    simp only [epure_def, ebind_ok, Except.ok.injEq,
                               Prod.mk.injEq] at h
                    obtain ⟨-, h2, h3⟩ := h
                    subst h3
                    rw [← h2]
                | some line =>
                    rw [hd] at h
                    simp only [] at h
                    cases hj : jadd line.quantity (JVal.jint q) with
                    | error e => rw [hj] at h; simp [emap_err, ebind_err] at h
                    | ok q2 =>
                        rw [hj] at h
                        simp only [emap_ok, ebind_ok, epure_def, Except.ok.injEq,
                                   Prod.mk.injEq] at h
                        obtain ⟨-, h2, h3⟩ := h
                        subst h3
                        rw [← h2]
  · intro catalog cart items total cnt cart2 h
    unfold api_get_cart tryApi at h
    cases hl : cartLoop catalog cart with
    | error e =>
        rw [hl] at h
        simp [ebind_err] at h
    | ok pair =>
        obtain ⟨its, tot⟩ := pair
        rw [hl] at h
        simp only [ebind_ok, epure_def, Prod.mk.injEq, CartListResp.ok.injEq] at h
        exact h.2.1.2.2.symm

/-- Claim C8 witness: a two-line cart gives total `price1*2 + price2*3`
from the view, a concrete successful legacy add reports `cart_count = 1`,
and `GET /api/cart` on a one-line cart whose product resolves reports the
raw line count. -/
theorem C8_total_and_cart_count_witness :
    intQuantitiesB
      [("1", { id := 1, name := "Organic Tomatoes", price := (399 : Rat) / 100,
               quantity := .jint 2, image := "i1" }),
       ("2", { id := 2, name := "Fresh Apples", price := (249 : Rat) / 100,
               quantity := .jint 3, image := "i2" })] = true ∧
    view_cart
      [("1", { id := 1, name := "Organic Tomatoes", price := (399 : Rat) / 100,
               quantity := .jint 2, image := "i1" }),
       ("2", { id := 2, name := "Fresh Apples", price := (249 : Rat) / 100,
               quantity := .jint 3, image := "i2" })] =
      .ok (([("1", { id := 1, name := "Organic Tomatoes", price := (399 : Rat) / 100,
                     quantity := .jint 2, image := "i1" }),
             ("2", { id := 2, name := "Fresh Apples", price := (249 : Rat) / 100,
                     quantity := .jint 3, image := "i2" })] : Cart).map (fun p => p.2),
            ((([("1", { id := 1, name := "Organic Tomatoes", price := (399 : Rat) / 100,
                        quantity := .jint 2, image := "i1" }),
                ("2", { id := 2, name := "Fresh Apples", price := (249 : Rat) / 100,
                        quantity := .jint 3, image := "i2" })] : Cart).map (fun p => p.2)).map
              (fun l => l.price * qtyAsRat l.quantity)).sum,
            [("1", { id := 1, name := "Organic Tomatoes", price := (399 : Rat) / 100,
                     quantity := .jint 2, image := "i1" }),
             ("2", { id := 2, name := "Fresh Apples", price := (249 : Rat) / 100,
                     quantity := .jint 3, image := "i2" })]) ∧
    add_to_cart [tomatoes] [] 1 none =
      .ok (200, { message := "Organic Tomatoes added to cart!", cart_count := 1 },
           [("1", { id := 1, name := "Organic Tomatoes", price := (399 : Rat) / 100,
                    quantity := .jint 1,
                    image := "https://images.unsplash.com/photo-1546470427-e212d4d25323?w=400" })]) ∧
    ({ message := "Organic Tomatoes added to cart!",
       cart_count := 1 } : AddCartResp).cart_count =
      ([("1", { id := 1, name := "Organic Tomatoes", price := (399 : Rat) / 100,
                quantity := .jint 1,
                image := "https://images.unsplash.com/photo-1546470427-e212d4d25323?w=400" })] : Cart).length :=
  ⟨rfl,
   C8_total_and_cart_count.1 _ rfl,
   by rfl,
   C8_total_and_cart_count.2.1 [tomatoes] [] 1 none 200
     { message := "Organic Tomatoes added to cart!", cart_count := 1 }
     [("1", { id := 1, name := "Organic Tomatoes", price := (399 : Rat) / 100,
              quantity := .jint 1,
              image := "https://images.unsplash.com/photo-1546470427-e212d4d25323?w=400" })]
     (by rfl)⟩

/-- A found product carries the id it was looked up by. -/
theorem queryGet_id {catalog : List Product} {m : Nat} {p : Product}
    (h : queryGet catalog m = some p) : p.id = m := by
  unfold queryGet at h
  have := List.find?_some h
  simpa using this

/-- Executable well-formedness of a stored cart: every key is a decimal
product-id string and every quantity an integer — true of every cart the
routes themselves build. -/
def wfCart (cart : Cart) : Bool :=
  cart.all (fun p => (pyIntVal p.1).isSome &&
    (match p.2.quantity with | .jint _ => true | .jstr _ => false))

/-- Whether a stored cart key still resolves in the catalog. -/
def keyResolves (catalog : List Product) (k : String) : Bool :=
  match pyIntVal k with
  | some n => (queryGet catalog n.toNat).isSome
  | none => false

theorem wfCart_spec {cart : Cart} (h : wfCart cart = true) :
    ∀ p ∈ cart,
      (∃ n : Int, pyIntVal p.1 = some n) ∧
      ∃ q : Int, p.2.quantity = JVal.jint q := by
  intro p hp
  have hb := List.all_eq_true.mp h p hp
  simp only [Bool.and_eq_true] at hb
  constructor
  · cases hn : pyIntVal p.1 with
    | none => rw [hn] at hb; simp at hb
    | some n => exact ⟨n, rfl⟩
  · cases hq : p.2.quantity with
    | jint q => exact ⟨q, rfl⟩
    | jstr s => rw [hq] at hb; simp at hb

/-- Full behavior of the `GET /api/cart` loop on a well-formed cart: it
succeeds, every produced item re-resolves in the catalog, the total is the
sum of the produced subtotals, exactly the resolvable lines produce items,
and every resolvable stored line appears among the items with its stored
snapshot fields. -/
theorem cartLoop_spec (catalog : List Product) :
    ∀ cart : Cart, wfCart cart = true →
    ∃ (items : List ApiCartItem) (total : Rat),
      cartLoop catalog cart = .ok (items, total) ∧
      (∀ it ∈ items, (queryGet catalog it.id).isSome = true) ∧
      total = (items.map (fun it => it.subtotal)).sum ∧
      items.length = cart.countP (fun p => keyResolves catalog p.1) ∧
      (∀ (k : String) (line : CartLine) (n : Int) (product : Product),
        (k, line) ∈ cart → pyIntVal k = some n →
        queryGet catalog n.toNat = some product →
        ∃ it ∈ items, it.id = product.id ∧ it.name = line.name ∧
          it.price = line.price ∧ it.quantity = line.quantity ∧
          it.image = line.image) := by
  intro cart
  induction cart with
  | nil =>
      intro _
      exact ⟨[], 0, rfl, by simp, by simp, by simp, by simp⟩
  | cons p rest ih =>
      intro h
      obtain ⟨k, line⟩ := p
      have hhead := wfCart_spec h (k, line) (by simp)
      obtain ⟨⟨n0, hn⟩, ⟨q0, hq0⟩⟩ := hhead
      simp only [] at hn hq0
      have hrest : wfCart rest = true := by
        unfold wfCart at h ⊢
        simp only [List.all_cons, Bool.and_eq_true] at h
        exact h.2
      obtain ⟨items0, total0, hl0, hb0, hc0, hd0, he0⟩ := ih hrest
      cases hg : queryGet catalog n0.toNat with
      | some product =>
          refine ⟨{ id := product.id, name := line.name, price := line.price,
                    quantity := line.quantity,
                    subtotal := line.price * (q0 : Rat),
                    image := line.image } :: items0,
                  line.price * (q0 : Rat) + total0, ?_, ?_, ?_, ?_, ?_⟩
          · simp [cartLoop, pyInt, hn, hg, hq0, jmul, hl0,
                  epure_def, ebind_ok, ebind_err, emap_ok, emap_err]
          · intro it hit
            rcases List.mem_cons.mp hit with hit | hit
            · subst hit
              simp only []
              rw [queryGet_id hg, hg]
              rfl
            · exact hb0 it hit
          · simp [hc0]
          · simp [List.countP_cons, keyResolves, hn, hg, hd0]
          · intro k2 line2 n2 product2 hmem hpn2 hqg2
            rcases List.mem_cons.mp hmem with hmem | hmem
            · have hk2 : k2 = k := (Prod.mk.injEq .. ▸ hmem).1
              have hline2 : line2 = line := (Prod.mk.injEq .. ▸ hmem).2
              rw [hk2, hn] at hpn2
              obtain rfl : n0 = n2 := by injection hpn2
              rw [hg] at hqg2
              obtain rfl : product = product2 := by injection hqg2
              refine ⟨{ id := product.id, name := line.name, price := line.price,
                        quantity := line.quantity,
                        subtotal := line.price * (q0 : Rat),
                        image := line.image }, by simp, rfl, ?_, ?_, ?_, ?_⟩ <;>
                rw [hline2]
            · obtain ⟨it, hit, hprops⟩ := he0 k2 line2 n2 product2 hmem hpn2 hqg2
              exact ⟨it, by simp [hit], hprops⟩
      | none =>
          refine ⟨items0, total0, ?_, hb0, hc0, ?_, ?_⟩
          · simp [cartLoop, pyInt, hn, hg, hl0,
                  epure_def, ebind_ok, ebind_err, emap_ok, emap_err]
          · simp [List.countP_cons, keyResolves, hn, hg, hd0]
          · intro k2 line2 n2 product2 hmem hpn2 hqg2
            rcases List.mem_cons.mp hmem with hmem | hmem
            · have hk2 : k2 = k := (Prod.mk.injEq .. ▸ hmem).1
              rw [hk2, hn] at hpn2
              obtain rfl : n0 = n2 := by injection hpn2
              rw [hg] at hqg2
              exact absurd hqg2 (by simp)
            · exact he0 k2 line2 n2 product2 hmem hpn2 hqg2

/-- Claim C4: on a well-formed session cart, `GET /api/cart` succeeds even
when some stored line no longer resolves in the catalog (dropping it
silently rather than erroring), every item it returns resolves, its total
is computed only over the returned (resolvable) items, exactly the
resolvable lines are returned, and the reported `cart_count` is the length
of the raw stored cart — unresolvable entries included. -/
theorem C4_api_list_drops_unresolvable :
    ∀ (catalog : List Product) (cart : Cart), wfCart cart = true →
    ∃ (items : List ApiCartItem) (total : Rat),
      api_get_cart catalog cart =
        (200, CartListResp.ok items total cart.length, cart) ∧
      (∀ it ∈ items, (queryGet catalog it.id).isSome = true) ∧
      total = (items.map (fun it => it.subtotal)).sum ∧
      items.length = cart.countP (fun p => keyResolves catalog p.1) := by
  intro catalog cart h
  obtain ⟨items, total, hl, hb, hc, hd, -⟩ := cartLoop_spec catalog cart h
  refine ⟨items, total, ?_, hb, hc, hd⟩
  simp [api_get_cart, tryApi, hl, ebind_ok, epure_def]

/-- Claim C4 witness: a cart holding seed product 1 and a stale line for
product 999 over the one-product catalog — the API listing succeeds,
returns only the resolvable line, totals only it, and still reports
`cart_count = 2`. -/
theorem C4_api_list_drops_unresolvable_witness :
    wfCart
      [("1", { id := 1, name := "Organic Tomatoes", price := (399 : Rat) / 100,
               quantity := .jint 2, image := "i1" }),
       ("999", { id := 999, name := "Ghost", price := 1,
                 quantity := .jint 1, image := "i2" })] = true ∧
    ∃ (items : List ApiCartItem) (total : Rat),
      api_get_cart [tomatoes]
        [("1", { id := 1, name := "Organic Tomatoes", price := (399 : Rat) / 100,
                 quantity := .jint 2, image := "i1" }),
         ("999", { id := 999, name := "Ghost", price := 1,
                   quantity := .jint 1, image := "i2" })] =
        (200, CartListResp.ok items total
          ([("1", { id := 1, name := "Organic Tomatoes", price := (399 : Rat) / 100,
                    quantity := .jint 2, image := "i1" }),
            ("999", { id := 999, name := "Ghost", price := 1,
                      quantity := .jint 1, image := "i2" })] : Cart).length,
         [("1", { id := 1, name := "Organic Tomatoes", price := (399 : Rat) / 100,
                  quantity := .jint 2, image := "i1" }),
          ("999", { id := 999, name := "Ghost", price := 1,
                    quantity := .jint 1, image := "i2" })]) ∧
      (∀ it ∈ items, (queryGet [tomatoes] it.id).isSome = true) ∧
      total = (items.map (fun it => it.subtotal)).sum ∧
      items.length =
        ([("1", { id := 1, name := "Organic Tomatoes", price := (399 : Rat) / 100,
                  quantity := .jint 2, image := "i1" }),
          ("999", { id := 999, name := "Ghost", price := 1,
                    quantity := .jint 1, image := "i2" })] : Cart).countP
          (fun p => keyResolves [tomatoes] p.1) :=
  ⟨rfl, C4_api_list_drops_unresolvable [tomatoes] _ rfl⟩

/-- Claim C10: the read operations write nothing: `GET /api/cart` returns
the session cart it was given on every path, the `/cart` view does the
same on success, and a stored line whose product was unresolvable is still
in the stored cart — so when the catalog later resolves its key again, the
API listing includes it once more with its stored snapshot. -/
theorem C10_read_ops_frame :
    (∀ (catalog : List Product) (cart : Cart),
      (api_get_cart catalog cart).2.2 = cart) ∧
    (∀ (cart : Cart) (r : List CartLine × Rat × Cart),
      view_cart cart = .ok r → r.2.2 = cart) ∧
    (∀ (catalog2 : List Product) (cart : Cart) (k : String) (line : CartLine)
       (n : Int) (product2 : Product),
      wfCart cart = true → (k, line) ∈ cart → pyIntVal k = some n →
      queryGet catalog2 n.toNat = some product2 →
      ∃ (items : List ApiCartItem) (total : Rat),
        api_get_cart catalog2 cart =
          (200, CartListResp.ok items total cart.length, cart) ∧
        ∃ it ∈ items, it.id = product2.id ∧ it.name = line.name ∧
          it.price = line.price ∧ it.quantity = line.quantity) := by
  refine ⟨?_, ?_, ?_⟩
  · intro catalog cart
    unfold api_get_cart tryApi
    cases hl : cartLoop catalog cart with
    | error e => simp [hl, ebind_err]
    | ok pair =>
        obtain ⟨its, tot⟩ := pair
        simp [hl, ebind_ok, epure_def]
  · intro cart r h
    unfold view_cart at h
    simp only [] at h
    cases hs : sumCart (cart.map (fun p => p.2)) with
    | error e => rw [hs] at h; simp [ebind_err] at h
    | ok t =>
        rw [hs] at h
        simp only [ebind_ok, epure_def, Except.ok.injEq] at h
        rw [← h]
  · intro catalog2 cart k line n product2 hwf hmem hpn hqg
    obtain ⟨items, total, hl, -, -, -, he⟩ := cartLoop_spec catalog2 cart hwf
    obtain ⟨it, hit, h1, h2, h3, h4, -⟩ := he k line n product2 hmem hpn hqg
    refine ⟨items, total, ?_, it, hit, h1, h2, h3, h4⟩
    simp [api_get_cart, tryApi, hl, ebind_ok, epure_def]

/-- Claim C10 witness: the frame result at a one-line cart whose product id
1 is initially unresolvable (empty catalog) and later resolvable
(`[tomatoes]`); the listing then contains the stored snapshot line again. -/
theorem C10_read_ops_frame_witness :
    (api_get_cart []
      [("1", { id := 1, name := "Old Tomatoes", price := 3,
               quantity := .jint 2, image := "old" })]).2.2 =
      [("1", { id := 1, name := "Old Tomatoes", price := 3,
               quantity := .jint 2, image := "old" })] ∧
    view_cart
      [("1", { id := 1, name := "Old Tomatoes", price := 3,
               quantity := .jint 2, image := "old" })] =
      .ok ([{ id := 1, name := "Old Tomatoes", price := 3,
              quantity := .jint 2, image := "old" }],
           (3 : Rat) * ((2 : Int) : Rat) + 0,
           [("1", { id := 1, name := "Old Tomatoes", price := 3,
                    quantity := .jint 2, image := "old" })]) ∧
    (([{ id := 1, name := "Old Tomatoes", price := 3,
         quantity := .jint 2, image := "old" }],
      (3 : Rat) * ((2 : Int) : Rat) + 0,
      [("1", { id := 1, name := "Old Tomatoes", price := 3,
               quantity := .jint 2, image := "old" })]) :
        List CartLine × Rat × Cart).2.2 =
      [("1", { id := 1, name := "Old Tomatoes", price := 3,
               quantity := .jint 2, image := "old" })] ∧
    wfCart
      [("1", { id := 1, name := "Old Tomatoes", price := 3,
               quantity := .jint 2, image := "old" })] = true ∧
    pyIntVal "1" = some 1 ∧
    queryGet [tomatoes] (1 : Int).toNat = some tomatoes ∧
    ∃ (items : List ApiCartItem) (total : Rat),
      api_get_cart [tomatoes]
        [("1", { id := 1, name := "Old Tomatoes", price := 3,
                 quantity := .jint 2, image := "old" })] =
        (200, CartListResp.ok items total
          ([("1", { id := 1, name := "Old Tomatoes", price := 3,
                    quantity := .jint 2, image := "old" })] : Cart).length,
         [("1", { id := 1, name := "Old Tomatoes", price := 3,
                  quantity := .jint 2, image := "old" })]) ∧
      ∃ it ∈ items, it.id = tomatoes.id ∧
        it.name = ({ id := 1, name := "Old Tomatoes", price := 3,
                     quantity := .jint 2, image := "old" } : CartLine).name ∧
        it.price = ({ id := 1, name := "Old Tomatoes", price := 3,
                      quantity := .jint 2, image := "old" } : CartLine).price ∧
        it.quantity = ({ id := 1, name := "Old Tomatoes", price := 3,
                         quantity := .jint 2, image := "old" } : CartLine).quantity :=
  ⟨C10_read_ops_frame.1 []
     [("1", { id := 1, name := "Old Tomatoes", price := 3,
              quantity := .jint 2, image := "old" })],
   rfl,
   C10_read_ops_frame.2.1
     [("1", { id := 1, name := "Old Tomatoes", price := 3,
              quantity := .jint 2, image := "old" })]
     ([{ id := 1, name := "Old Tomatoes", price := 3,
         quantity := .jint 2, image := "old" }],
      (3 : Rat) * ((2 : Int) : Rat) + 0,
      [("1", { id := 1, name := "Old Tomatoes", price := 3,
               quantity := .jint 2, image := "old" })]) (by rfl),
   rfl, rfl, rfl,
   C10_read_ops_frame.2.2 [tomatoes]
     [("1", { id := 1, name := "Old Tomatoes", price := 3,
              quantity := .jint 2, image := "old" })]
     "1" { id := 1, name := "Old Tomatoes", price := 3,
           quantity := .jint 2, image := "old" } 1 tomatoes
     rfl (by simp) rfl rfl⟩

end IFarma
